import Mathlib

/-!
Verification of the TFBToolset benchmarking orchestrator against its
natural-language specification.

The definitions below are a shallow embedding of the Rust sources under
`src/`.  Pure computations are translated into Lean functions; the
interactions with the Docker daemon and with the HTTP client (curl) are made
explicit as oracle parameters (for example the per-tick HTTP response code of
the readiness probe, or the stop/kill outcome per container).  Machine
integers that cannot overflow in the modelled paths are represented by `Nat`;
`u32`/`f32` parses that can fail are modelled with `Option`.
-/

namespace TFB

/-- Newline character, written via its code point. -/
def nlChar : Char := Char.ofNat 10

/-- Carriage-return character, written via its code point. -/
def crChar : Char := Char.ofNat 13

/-- Left curly brace character, written via its code point. -/
def lbrace : Char := Char.ofNat 123

/-- Right curly brace character, written via its code point. -/
def rbrace : Char := Char.ofNat 125

/-- Strips one trailing carriage return, mirroring how Rust's
`str::lines` treats a `\r\n` line ending. -/
def stripCR (line : List Char) : List Char :=
  match line.reverse with
  | c :: rest => if c = crChar then rest.reverse else line
  | [] => line

/-- Helper for `rustLines`: walks the character list, accumulating the
current line (in reverse) and emitting a line at every newline. -/
def rustLinesGo : List Char → List Char → List (List Char)
  | [], cur => if cur.isEmpty then [] else [cur.reverse]
  | c :: cs, cur =>
    if c = nlChar then stripCR cur.reverse :: rustLinesGo cs []
    else rustLinesGo cs (c :: cur)

/-- Model of Rust's `str::lines`: splits at `\n` (stripping a preceding
`\r`); a final line without a trailing newline is kept, a trailing newline
does not produce an extra empty line. -/
def rustLines (cs : List Char) : List (List Char) := rustLinesGo cs []

/-- Model of `error::ToolsetError` restricted to the variants reached by the
code paths under verification.  `curlError` stands for
`ToolsetError::CurlError` (carrying the curl error code) and `otherError`
abstracts the remaining variants, which the verified paths only pass
through unchanged. -/
inductive ToolsetError
  | NoResponseFromDockerContainerError
  | AppServerContainerShutDownError
  | FailedToInspectDockerContainerError (msg : String)
  | FailedToCreateDockerNetworkError (msg : String)
  | DockerNetworkCreateError
  | DockerNetworkDeleteError
  | curlError (code : Nat)
  | otherError (tag : String)
  deriving DecidableEq, Repr

/-- Decidable equality for `Except`, used on probe results. -/
instance exceptDecEq {ε α : Type} [DecidableEq ε] [DecidableEq α] :
    DecidableEq (Except ε α) := fun a b =>
  match a, b with
  | .ok x, .ok y =>
    if h : x = y then .isTrue (by rw [h]) else .isFalse (by simp [h])
  | .ok _, .error _ => .isFalse (by simp)
  | .error _, .ok _ => .isFalse (by simp)
  | .error x, .error y =>
    if h : x = y then .isTrue (by rw [h]) else .isFalse (by simp [h])

/-- Result of one readiness-probe run of
`Benchmarker::wait_until_accepting_requests` (src/src/benchmarker.rs,
lines 790-843): the returned value, the number of one-second sleep ticks
performed, and whether `stop_containers` was invoked on the way out. -/
structure ProbeRun where
  result : Except ToolsetError Unit
  ticks : Nat
  stoppedContainers : Bool
  deriving DecidableEq, Repr

/-- Shallow embedding of `Benchmarker::wait_until_accepting_requests`
(src/src/benchmarker.rs, lines 790-843).  The Docker daemon and the HTTP
client are oracles indexed by the current value of `slept_for` (the loop
increments `slept_for` by exactly one per iteration, so the iteration number
and the counter coincide): `running i` is the `state.running` flag returned
by `inspect_container` on iteration `i`, and `respCode i` models
`easy.response_code()` — `some c` for `Ok(c)` and `none` for `Err(_)`.
Each iteration (in source order): inspect the container and fail with
`AppServerContainerShutDownError` if it is not running; if `slept_for > 60`
stop all containers and fail with `NoResponseFromDockerContainerError`;
issue the HTTP request, returning `Ok(())` when the response code is
positive; otherwise increment `slept_for` and sleep one second.  The `trip`
checkpoints only matter under interruption and perform no state change
here. -/
def waitUntilAcceptingRequests (running : Nat → Bool) (respCode : Nat → Option Nat)
    (sleptFor : Nat) : ProbeRun :=
  if !(running sleptFor) then
    ⟨.error .AppServerContainerShutDownError, 0, false⟩
  else if sleptFor > 60 then
    ⟨.error .NoResponseFromDockerContainerError, 0, true⟩
  else
    match respCode sleptFor with
    | some c =>
      if c > 0 then ⟨.ok (), 0, false⟩
      else
        let rest := waitUntilAcceptingRequests running respCode (sleptFor + 1)
        { rest with ticks := rest.ticks + 1 }
    | none =>
        let rest := waitUntilAcceptingRequests running respCode (sleptFor + 1)
        { rest with ticks := rest.ticks + 1 }
termination_by 61 - sleptFor
decreasing_by
  all_goals omega

/-- Loop state of the older probe copy `wait_until_accepting_requests` in
src/src/docker/mod.rs (lines 157-204): the number of iterations performed so
far (used to index the response oracle) and the `slept_for` counter.  Unlike
the copy in benchmarker.rs, this loop does not inspect the container, and it
increments `slept_for` only in the `_` match arm. -/
structure OldProbeState where
  iter : Nat
  sleptFor : Nat
  deriving DecidableEq, Repr

/-- One iteration of the probe loop in src/src/docker/mod.rs (lines
163-203): if `slept_for > 60`, stop the app (and database) container and
fail with `NoResponseFromDockerContainerError`; otherwise perform the HTTP
request and match on `easy.response_code()`: `Ok(code)` with `code > 0`
returns `Ok(())`, any `Err` increments `slept_for` and sleeps — but an
`Ok(code)` with `code = 0` (curl's report when no response was received)
falls through both arms without touching the counter. -/
def oldProbeStep (respCode : Nat → Option Nat) (st : OldProbeState) :
    Sum OldProbeState (Except ToolsetError Unit) :=
  if st.sleptFor > 60 then
    .inr (.error .NoResponseFromDockerContainerError)
  else
    match respCode st.iter with
    | some c =>
      if c > 0 then .inr (.ok ())
      else .inl ⟨st.iter + 1, st.sleptFor⟩
    | none => .inl ⟨st.iter + 1, st.sleptFor + 1⟩

/-- Runs `oldProbeStep` for at most `fuel` iterations, returning either the
state still in the loop after the budget or the value the loop returned. -/
def oldProbeRun (respCode : Nat → Option Nat) :
    Nat → OldProbeState → Sum OldProbeState (Except ToolsetError Unit)
  | 0, st => .inl st
  | fuel + 1, st =>
    match oldProbeStep respCode st with
    | .inl st2 => oldProbeRun respCode fuel st2
    | .inr r => .inr r

/-- Modelled from the spec: the Lifecycle Handle `DockerContainerIdFuture`
(declared in the newer docker module, which is not under src/; only its
callers in src/src/benchmarker.rs and src/src/docker/container/mod.rs are).
Per spec section 4.2 it is a per-role cell with fields
`{docker-host, image-id?, container-id?, needs-stop}`; `register` sets
`{container-id: Some, needs-stop: true}` and `unregister` resets both. -/
structure DockerContainerIdFuture where
  dockerHost : String
  imageId : Option String := none
  containerId : Option String := none
  needsStop : Bool := false
  deriving DecidableEq, Repr

/-- Modelled from the spec: `poll()` of the Lifecycle Handle returns `Ready`
iff (not `needs-stop`) or (`container-id` is `Some`); here `true` stands for
`Ready`. -/
def DockerContainerIdFuture.pollReady (t : DockerContainerIdFuture) : Bool :=
  !t.needsStop || t.containerId.isSome

/-- Drain of one tracker, as performed by `stop_docker_container_future`
(src/src/docker/container/mod.rs, lines 309-328) once `poll()` has become
`Ready`: if a `container_id` is present it is killed on the tracker's Docker
host and the field is cleared; otherwise nothing happens.  Returns the list
of kill operations (container ids, in order) together with the updated
tracker. -/
def stopDockerContainerFuture (t : DockerContainerIdFuture) :
    List String × DockerContainerIdFuture :=
  match t.containerId with
  | some id => ([id], { t with containerId := none })
  | none => ([], t)

/-- Kill sequence of `Benchmarker::stop_containers`
(src/src/benchmarker.rs, lines 690-711): the four trackers are drained by
four successive `stop_docker_container_future` calls, in the textual order
verifier, benchmarker (load generator), application, database. -/
def stopContainersKills (verifier benchmarker application database :
    DockerContainerIdFuture) : List String :=
  (stopDockerContainerFuture verifier).1 ++
    (stopDockerContainerFuture benchmarker).1 ++
    (stopDockerContainerFuture application).1 ++
    (stopDockerContainerFuture database).1

/-- Kill sequence of the worker spawned on the first interrupt by the
`ctrlc` handler installed in `Benchmarker::new` (src/src/benchmarker.rs,
lines 104-145): it drains, in order, the verifier, benchmarker (load
generator), application and database trackers, then exits the process. -/
def interruptWorkerKills (verifier benchmarker application database :
    DockerContainerIdFuture) : List String :=
  (stopDockerContainerFuture verifier).1 ++
    (stopDockerContainerFuture benchmarker).1 ++
    (stopDockerContainerFuture application).1 ++
    (stopDockerContainerFuture database).1

/-- Shallow embedding of `stop_containers_because_of_error`
(src/src/docker/container/mod.rs, lines 263-281).  The outcome of
`stop_container` on each container id is an oracle `stopResult`; the
function stops the first container of the pair (returning that failure if it
fails), then the optional second one (returning that failure if it fails),
and only otherwise propagates the original `error`. -/
def stopContainersBecauseOfError (stopResult : String → Except ToolsetError Unit)
    (containerIds : String × Option String) (error : ToolsetError) : ToolsetError :=
  match stopResult containerIds.1 with
  | .error e => e
  | .ok _ =>
    match containerIds.2 with
    | some containerId =>
      match stopResult containerId with
      | .error e => e
      | .ok _ => error
    | none => error

/-- Minimal JSON value model for the payload returned by
`GET /containers/{id}/json`.  Objects are association lists in the
iteration order of `serde_json::Map` (a `BTreeMap`, i.e. keys sorted and
unique); indexing a missing key or a non-object yields `Null`, as with
`serde_json::Value::index`. -/
inductive Json
  | null
  | str (s : String)
  | num (lexeme : String)
  | bool (b : Bool)
  | arr (elems : List Json)
  | obj (kvs : List (String × Json))
  deriving Repr

/-- Indexing a `Json` value by object key, as `value["key"]` does on
`serde_json::Value`: the entry of an object, `Null` otherwise. -/
def Json.idx (j : Json) (key : String) : Json :=
  match j with
  | .obj kvs =>
    match kvs.find? (fun kv => kv.1 = key) with
    | some kv => kv.2
    | none => .null
  | _ => .null

/-- Indexing a `Json` value by array position, as `value[0]` does on
`serde_json::Value`. -/
def Json.idxAt (j : Json) (i : Nat) : Json :=
  match j with
  | .arr elems => (elems.get? i).getD .null
  | _ => .null

/-- Model of `serde_json::Value::as_object` (returning just the key/value
list). -/
def Json.asObject : Json → Option (List (String × Json))
  | .obj kvs => some kvs
  | _ => none

/-- Model of `serde_json::Value::as_str`. -/
def Json.asStr : Json → Option String
  | .str s => some s
  | _ => none

/-- Network mode of `dockurl::network::NetworkMode` as used by the
inspect-container listener. -/
inductive NetworkMode
  | bridge
  | host
  deriving DecidableEq, Repr

/-- Model of `str::split('/').next()`: the segment before the first
slash (the whole string when no slash occurs); `next()` on a split is
always `Some`. -/
def splitSlashHead (s : String) : Option String :=
  some (String.mk (s.data.takeWhile (fun c => c ≠ '/')))

/-- First-key selection loop of `InspectContainer::get_host_ports`
(src/src/docker/listener/inspect_container.rs, lines 23-28): starting from
the empty string, each key is assigned only while the accumulator is still
empty, so the result is the first non-empty key in iteration order. -/
def firstExposedKey (kvs : List (String × Json)) : String :=
  kvs.foldl (fun acc kv => if acc.isEmpty then kv.1 else acc) ""

/-- Shallow embedding of `InspectContainer::get_host_ports`
(src/src/docker/listener/inspect_container.rs, lines 20-46), applied to the
already-parsed inspect payload.  It walks `Config.ExposedPorts`, takes the
first exposed `"N/proto"` key, and resolves
`NetworkSettings.Ports[key][0].HostPort`; when that entry is absent and the
network mode is `host`, the exposed port doubles as the host port. -/
def getHostPorts (networkMode : NetworkMode) (json : Json) :
    Except ToolsetError (String × String) :=
  let failure : Except ToolsetError (String × String) :=
    .error (.FailedToInspectDockerContainerError
      "Could not determine host port for running container.")
  match ((json.idx "Config").idx "ExposedPorts").asObject with
  | some exposedPorts =>
    let exposedPortProtocol := firstExposedKey exposedPorts
    match splitSlashHead exposedPortProtocol with
    | some exposedPort =>
      match ((((json.idx "NetworkSettings").idx "Ports").idx
          exposedPortProtocol).idxAt 0).idx "HostPort" |>.asStr with
      | some hostPort => .ok (hostPort, exposedPort)
      | none =>
        match networkMode with
        | .host => .ok (exposedPort, exposedPort)
        | .bridge => failure
    | none => failure
  | none => failure

/-- State of one Docker daemon's network table: the existing networks
(name, id) and a counter supplying fresh network ids.  Every id ever handed
out is smaller than `nextId`. -/
structure DockerDaemonState where
  networks : List (String × Nat)
  nextId : Nat
  deriving DecidableEq, Repr

/-- Response of `POST /networks/create`. -/
inductive NetworksCreateResponse
  | created (id : Nat)
  | conflict
  deriving DecidableEq, Repr

/-- Docker Engine behaviour of `POST /networks/create` with
`CheckDuplicate` set (as `create_network` posts it): a 409 conflict when a
network of that name exists, otherwise a 201 with a fresh id. -/
def networksCreateApi (s : DockerDaemonState) (name : String) :
    NetworksCreateResponse × DockerDaemonState :=
  if s.networks.any (fun nw => nw.1 = name) then
    (.conflict, s)
  else
    (.created s.nextId, ⟨s.networks ++ [(name, s.nextId)], s.nextId + 1⟩)

/-- Docker Engine behaviour of `DELETE /networks/{name}` as used by
`delete_network` (src/src/docker/network.rs, lines 184-202): 204 (here
`some` of the new state) when the network existed, an error response
otherwise. -/
def deleteNetworkApi (s : DockerDaemonState) (name : String) :
    Option DockerDaemonState :=
  if s.networks.any (fun nw => nw.1 = name) then
    some ⟨s.networks.filter (fun nw => nw.1 ≠ name), s.nextId⟩
  else
    none

/-- Shallow embedding of `create_network` (src/src/docker/network.rs, lines
72-122) against the daemon model.  The function posts a create for the
constant name `TFBNetwork`; on 201 it returns the new id, on 409 it deletes
the existing network and calls itself again.  The self-call is rendered with
a recursion budget (`fuel`); `none` doubles for an error exit, including the
budget running out, which the theorems show does not happen from any daemon
state at the budget used by `createNetwork`. -/
def createNetworkFuel : Nat → DockerDaemonState →
    Option (Nat × DockerDaemonState)
  | 0, _ => none
  | fuel + 1, s =>
    match networksCreateApi s "TFBNetwork" with
    | (.created id, s2) => some (id, s2)
    | (.conflict, s2) =>
      match deleteNetworkApi s2 "TFBNetwork" with
      | some s3 => createNetworkFuel fuel s3
      | none => none

/-- Entry point of the `create_network` embedding: two levels of recursion
are enough, because after a successful delete the name is free. -/
def createNetwork (s : DockerDaemonState) : Option (Nat × DockerDaemonState) :=
  createNetworkFuel 2 s

/-- Model of `std::collections::HashMap<String, String>` as used for
`Test::urls` (src/src/config.rs, line 38).  `entries` records the key/value
pairs in insertion order (keys unique); `bucketOf` abstracts the placement
the randomly seeded hasher assigns to each key, which is what the standard
library's arbitrary iteration order follows.  Nothing ties `bucketOf` to the
insertion sequence: the std documentation leaves the iteration order
unspecified and it changes from map to map. -/
structure RustHashMap where
  entries : List (String × String)
  bucketOf : String → Nat

/-- Stable insertion of an entry into a bucket-ordered list, keeping
insertion order among keys in the same bucket. -/
def bucketInsert (bucketOf : String → Nat) (kv : String × String) :
    List (String × String) → List (String × String)
  | [] => [kv]
  | head :: tail =>
    if bucketOf head.1 ≤ bucketOf kv.1 then
      head :: bucketInsert bucketOf kv tail
    else
      kv :: head :: tail

/-- Iteration order of the modelled `HashMap` (`urls.iter()`,
`urls.keys()`): the entries as laid out by the hasher's bucket assignment,
not the insertion order. -/
def RustHashMap.iterOrder (m : RustHashMap) : List (String × String) :=
  m.entries.foldr (bucketInsert m.bucketOf) []

/-- Model of `config::Test` restricted to the fields the verified paths
read (src/src/config.rs, lines 35-50): the test-type-name to endpoint-path
mapping is a `HashMap`. -/
structure Test where
  name : Option String
  urls : RustHashMap
  database : Option String

/-- Endpoint visiting order used by `Benchmarker::benchmark`
(src/src/benchmarker.rs, line 174: `for test_type in &test.urls`),
`Benchmarker::verify` (line 282) and the probe's endpoint pick (line 818:
`test.urls.keys().next()`): the `HashMap` iteration order. -/
def testTypeVisitOrder (test : Test) : List (String × String) :=
  test.urls.iterOrder

/-- Whitespace predicate of Rust's `char::is_whitespace` and of the JSON
grammar, restricted to the ASCII whitespace characters (the only ones the
verified inputs contain). -/
def rustIsWhitespace (c : Char) : Bool :=
  c = ' ' || c = Char.ofNat 9 || c = nlChar || c = crChar || c = Char.ofNat 12

/-- Model of `str::trim` emptiness (`line.trim().is_empty()`): true when
every character is whitespace. -/
def trimIsEmpty (line : List Char) : Bool :=
  line.all rustIsWhitespace

/-- Model of `str::trim_end`: drops trailing whitespace. -/
def trimEnd (line : List Char) : List Char :=
  (line.reverse.dropWhile rustIsWhitespace).reverse

/-- Parses one JSON string body after the opening quote (with a recursion
budget of one unit per character), returning the decoded characters and the
input after the closing quote.  The standard single-character escapes and
`\u` hex escapes of the JSON grammar are decoded. -/
def parseJsonStringBodyFuel : Nat → List Char → Option (List Char × List Char)
  | 0, _ => none
  | _, [] => none
  | fuel + 1, c :: rest =>
    if c = '"' then
      some ([], rest)
    else if c = '\\' then
      match rest with
      | [] => none
      | e :: rest2 =>
        let decoded : Option (Char × List Char) :=
          if e = '"' then some ('"', rest2)
          else if e = '\\' then some ('\\', rest2)
          else if e = '/' then some ('/', rest2)
          else if e = 'b' then some (Char.ofNat 8, rest2)
          else if e = 'f' then some (Char.ofNat 12, rest2)
          else if e = 'n' then some (nlChar, rest2)
          else if e = 'r' then some (crChar, rest2)
          else if e = 't' then some (Char.ofNat 9, rest2)
          else if e = 'u' then
            match rest2 with
            | h1 :: h2 :: h3 :: h4 :: rest3 =>
              let hex? (h : Char) : Option Nat :=
                if h.isDigit then some (h.toNat - 48)
                else if 97 ≤ h.toNat ∧ h.toNat ≤ 102 then some (h.toNat - 87)
                else if 65 ≤ h.toNat ∧ h.toNat ≤ 70 then some (h.toNat - 55)
                else none
              match hex? h1, hex? h2, hex? h3, hex? h4 with
              | some a, some b, some c2, some d =>
                some (Char.ofNat (((a * 16 + b) * 16 + c2) * 16 + d), rest3)
              | _, _, _, _ => none
            | _ => none
          else none
        match decoded with
        | some (dc, rest3) =>
          match parseJsonStringBodyFuel fuel rest3 with
          | some (tail, rem) => some (dc :: tail, rem)
          | none => none
        | none => none
    else
      match parseJsonStringBodyFuel fuel rest with
      | some (tail, rem) => some (c :: tail, rem)
      | none => none

/-- Entry point for `parseJsonStringBodyFuel` with an always-sufficient
budget. -/
def parseJsonStringBody (cs : List Char) : Option (List Char × List Char) :=
  parseJsonStringBodyFuel (cs.length + 1) cs

/-- Lexical form of a JSON number: optional minus, digits, optional
fraction, optional exponent.  Returns the lexeme and the rest.  The verified
paths never read numeric values, so the lexeme is kept as-is. -/
def parseJsonNumberLexeme (cs : List Char) : Option (List Char × List Char) :=
  let sign : List Char × List Char :=
    match cs with
    | c :: rest => if c = '-' then ([c], rest) else ([], cs)
    | [] => ([], cs)
  let intPart := sign.2.takeWhile Char.isDigit
  let afterInt := sign.2.dropWhile Char.isDigit
  if intPart.isEmpty then none
  else
    let (fracPart, afterFrac) :=
      match afterInt with
      | c :: rest =>
        if c = '.' ∧ (rest.takeWhile Char.isDigit).length > 0 then
          (c :: rest.takeWhile Char.isDigit, rest.dropWhile Char.isDigit)
        else ([], afterInt)
      | [] => ([], afterInt)
    let (expPart, afterExp) :=
      match afterFrac with
      | c :: rest =>
        if c = 'e' ∨ c = 'E' then
          let (signE, restE) :=
            match rest with
            | s :: r2 => if s = '+' ∨ s = '-' then ([s], r2) else ([], rest)
            | [] => ([], rest)
          let digitsE := restE.takeWhile Char.isDigit
          if digitsE.length > 0 then
            (c :: (signE ++ digitsE), restE.dropWhile Char.isDigit)
          else ([], afterFrac)
        else ([], afterFrac)
      | [] => ([], afterFrac)
    some (sign.1 ++ intPart ++ fracPart ++ expPart, afterExp)

/-- Tests whether `pre` is a prefix of `cs`, returning the remainder. -/
def dropPrefixChars (pre cs : List Char) : Option (List Char) :=
  match pre, cs with
  | [], rest => some rest
  | p :: ps, c :: rest => if p = c then dropPrefixChars ps rest else none
  | _ :: _, [] => none

mutual

/-- Recursive-descent parser for a JSON value, modelling what `serde_json`
accepts.  The budget `fuel` only bounds recursion depth; `jsonFromStr`
supplies one unit per input character, which no input can exhaust. -/
def parseJsonValue : Nat → List Char → Option (Json × List Char)
  | 0, _ => none
  | fuel + 1, cs =>
    match cs.dropWhile rustIsWhitespace with
    | [] => none
    | c :: rest =>
      if c = '"' then
        match parseJsonStringBody rest with
        | some (body, rem) => some (.str (String.mk body), rem)
        | none => none
      else if c = lbrace then
        match rest.dropWhile rustIsWhitespace with
        | c2 :: rest2 =>
          if c2 = rbrace then some (.obj [], rest2)
          else parseJsonMembers fuel (c2 :: rest2) []
        | [] => none
      else if c = '[' then
        match rest.dropWhile rustIsWhitespace with
        | c2 :: rest2 =>
          if c2 = ']' then some (.arr [], rest2)
          else parseJsonElems fuel (c2 :: rest2) []
        | [] => none
      else
        match dropPrefixChars ['t', 'r', 'u', 'e'] (c :: rest) with
        | some rem => some (.bool true, rem)
        | none =>
          match dropPrefixChars ['f', 'a', 'l', 's', 'e'] (c :: rest) with
          | some rem => some (.bool false, rem)
          | none =>
            match dropPrefixChars ['n', 'u', 'l', 'l'] (c :: rest) with
            | some rem => some (.null, rem)
            | none =>
              match parseJsonNumberLexeme (c :: rest) with
              | some (lexeme, rem) => some (.num (String.mk lexeme), rem)
              | none => none

/-- Parses the member list of a JSON object, positioned at a member's
opening key quote; members are separated by commas and the list is closed
by a brace. -/
def parseJsonMembers : Nat → List Char → List (String × Json) →
    Option (Json × List Char)
  | 0, _, _ => none
  | fuel + 1, cs, acc =>
    match cs with
    | '"' :: keyRest =>
      match parseJsonStringBody keyRest with
      | some (keyChars, afterKey) =>
        match afterKey.dropWhile rustIsWhitespace with
        | ':' :: afterColon =>
          match parseJsonValue fuel afterColon with
          | some (v, afterVal) =>
            match afterVal.dropWhile rustIsWhitespace with
            | sep :: afterSep =>
              if sep = ',' then
                parseJsonMembers fuel (afterSep.dropWhile rustIsWhitespace)
                  ((String.mk keyChars, v) :: acc)
              else if sep = rbrace then
                some (.obj ((String.mk keyChars, v) :: acc).reverse, afterSep)
              else none
            | [] => none
          | none => none
        | _ => none
      | none => none
    | _ => none

/-- Parses the element list of a JSON array, positioned at an element. -/
def parseJsonElems : Nat → List Char → List Json → Option (Json × List Char)
  | 0, _, _ => none
  | fuel + 1, cs, acc =>
    match parseJsonValue fuel cs with
    | some (v, afterVal) =>
      match afterVal.dropWhile rustIsWhitespace with
      | sep :: afterSep =>
        if sep = ',' then
          parseJsonElems fuel (afterSep.dropWhile rustIsWhitespace) (v :: acc)
        else if sep = ']' then
          some (.arr (v :: acc).reverse, afterSep)
        else none
      | [] => none
    | none => none

end

/-- Model of `serde_json::from_str::<Value>`: parses one JSON value and
requires only trailing whitespace after it. -/
def jsonFromStr (cs : List Char) : Option Json :=
  match parseJsonValue (cs.length + 1) cs with
  | some (v, rest) =>
    if (rest.dropWhile rustIsWhitespace).isEmpty then some v else none
  | none => none

/-- Warning payload of the verifier protocol
(src/src/docker/listener/verifier.rs, lines 53-57). -/
structure Warning where
  message : String
  short_message : String
  deriving DecidableEq, Repr

/-- Error payload of the verifier protocol
(src/src/docker/listener/verifier.rs, lines 58-62); named apart from
`ToolsetError`, which models the toolset's own error enum. -/
structure VerifierErr where
  message : String
  short_message : String
  deriving DecidableEq, Repr

/-- Verification record accumulated by the verifier listener
(src/src/docker/verification.rs). -/
structure Verification where
  framework_name : String
  test_name : String
  type_name : String
  warnings : List Warning
  errors : List VerifierErr
  deriving DecidableEq, Repr

/-- Model of `serde_json::from_str::<WarningMessage>` on one line: the line
must be a JSON value carrying an object field `warning` with string fields
`message` and `short_message` (extra fields are allowed, as serde allows
them by default). -/
def deserWarningMessage (line : List Char) : Option Warning :=
  match jsonFromStr line with
  | some j =>
    match ((j.idx "warning").idx "message").asStr,
        ((j.idx "warning").idx "short_message").asStr with
    | some m, some s => some ⟨m, s⟩
    | _, _ => none
  | none => none

/-- Model of `serde_json::from_str::<ErrorMessage>` on one line, analogous
to `deserWarningMessage` for the `error` field. -/
def deserErrorMessage (line : List Char) : Option VerifierErr :=
  match jsonFromStr line with
  | some j =>
    match ((j.idx "error").idx "message").asStr,
        ((j.idx "error").idx "short_message").asStr with
    | some m, some s => some ⟨m, s⟩
    | _, _ => none
  | none => none

/-- State of the verifier attachment listener: the accumulated
`Verification` and the lines sent to the verification log. -/
structure VerifierState where
  verification : Verification
  logLines : List (List Char)
  deriving DecidableEq, Repr

/-- Shallow embedding of `Verifier::write`
(src/src/docker/listener/verifier.rs, lines 33-51): every chunk handed to
the write callback is split into lines on the spot (`logs.lines()`), and
each non-blank line is parsed as a warning message, else as an error
message, else logged.  No partial line is carried over to the next chunk:
the chunk boundary itself delimits the lines this iteration sees. -/
def verifierWrite (st : VerifierState) (data : List Char) : VerifierState :=
  (rustLines data).foldl
    (fun st line =>
      if trimIsEmpty line then st
      else
        match deserWarningMessage line with
        | some w =>
          { st with verification :=
              { st.verification with
                  warnings := st.verification.warnings ++ [w] } }
        | none =>
          match deserErrorMessage line with
          | some e =>
            { st with verification :=
                { st.verification with
                    errors := st.verification.errors ++ [e] } }
          | none => { st with logLines := st.logLines ++ [trimEnd line] })
    st

/-- Feeds a sequence of chunks to the verifier listener, as the Docker
attach stream does. -/
def verifierRun (st : VerifierState) (chunks : List (List Char)) :
    VerifierState :=
  chunks.foldl verifierWrite st

/-- Initial listener state for a verification of the given names
(`Verifier::new`, src/src/docker/listener/verifier.rs, lines 11-32). -/
def verifierInit (framework test ttype : String) : VerifierState :=
  ⟨⟨framework, test, ttype, [], []⟩, []⟩

/-- Single-character regex atom: a character class or a literal.  The
regexes of `Benchmarker::parse_wrk_output` repeat only such atoms, so
every repetition consumes exactly one character per iteration. -/
inductive Atom
  | cls (p : Char → Bool)
  | lit (c : Char)

/-- Whether an atom matches one character. -/
def matchAtom : Atom → Char → Bool
  | .cls p, c => p c
  | .lit l, c => c = l

/-- Piece of a regex inside a capture group: one atom, a greedy `*`, or a
greedy `+` repetition of an atom. -/
inductive SimplePiece
  | one (a : Atom)
  | star (a : Atom)
  | plus (a : Atom)

/-- Top-level piece of one of the wrk-report regexes: a bare piece, a
starred capture group over an atom (the `(\s)*` of the source patterns), or
a capture group over a sequence of simple pieces (the value groups).  Group
indices are the group numbers of the source regex. -/
inductive Piece
  | simple (sp : SimplePiece)
  | starGroup (idx : Nat) (a : Atom)
  | group (idx : Nat) (sps : List SimplePiece)

/-- Length of the maximal run of characters matching an atom. -/
def maxRun (a : Atom) (cs : List Char) : Nat :=
  (cs.takeWhile (matchAtom a)).length

/-- Remainders after matching one simple piece, in backtracking preference
order (greedy repetitions try the longest run first, as leftmost-first
regex semantics prescribe). -/
def spRemainders : SimplePiece → List Char → List (List Char)
  | .one a, cs =>
    match cs with
    | c :: rest => if matchAtom a c then [rest] else []
    | [] => []
  | .star a, cs =>
    let n := maxRun a cs
    (List.range (n + 1)).map (fun i => cs.drop (n - i))
  | .plus a, cs =>
    let n := maxRun a cs
    (List.range n).map (fun i => cs.drop (n - i))

/-- Remainders after matching a sequence of simple pieces, in preference
order. -/
def simpleSeqRemainders : List SimplePiece → List Char → List (List Char)
  | [], cs => [cs]
  | sp :: sps, cs =>
    (spRemainders sp cs).flatMap (simpleSeqRemainders sps)

/-- Captures of one regex match: group index paired with the captured
characters. -/
abbrev Caps : Type := List (Nat × List Char)

/-- Alternatives for one top-level piece: remainder plus captures recorded
by the piece, in preference order.  A starred group records the last
iteration's character, mirroring how a repeated capture group reports its
final iteration. -/
def pieceAlternatives : Piece → List Char → List (List Char × Caps)
  | .simple sp, cs => (spRemainders sp cs).map (fun rem => (rem, []))
  | .starGroup idx a, cs =>
    let n := maxRun a cs
    (List.range (n + 1)).map (fun i =>
      let taken := n - i
      (cs.drop taken,
        if taken > 0 then [(idx, (cs.take taken).drop (taken - 1))] else []))
  | .group idx sps, cs =>
    (simpleSeqRemainders sps cs).map (fun rem =>
      (rem, [(idx, cs.take (cs.length - rem.length))]))

/-- Matches a sequence of top-level pieces with global backtracking,
returning every (remainder, captures) pair in preference order. -/
def matchPieces : List Piece → List Char → List (List Char × Caps)
  | [], cs => [(cs, [])]
  | p :: ps, cs =>
    (pieceAlternatives p cs).flatMap (fun alt =>
      (matchPieces ps alt.1).map (fun done => (done.1, alt.2 ++ done.2)))

/-- Model of `Regex::captures`: the leftmost match wins, and within one
start position the backtracking preference order decides, as with the
leftmost-first semantics of the `regex` crate.  Returns the captures of
that match. -/
def reFind (re : List Piece) (cs : List Char) : Option Caps :=
  match (matchPieces re cs).head? with
  | some alt => some alt.2
  | none =>
    match cs with
    | [] => none
    | _ :: rest => reFind re rest

/-- Model of `captures.get(i).unwrap().as_str()`: `none` doubles for the
panic of `unwrap` on a group that did not participate. -/
def capStr (caps : Caps) (idx : Nat) : Option String :=
  (caps.find? (fun kv => kv.1 = idx)).map (fun kv => String.mk kv.2)

/-- Character class `[0-9]`. -/
def digitCls : Atom := .cls Char.isDigit

/-- Character class `\s`, sharing `rustIsWhitespace`. -/
def wsCls : Atom := .cls rustIsWhitespace

/-- Character class `[us|ms|s|m|%]` of the latency patterns: the set of
characters u, s, `|`, m, `%` (character-class alternation bars are literal
members). -/
def latUnitCls : Atom :=
  .cls (fun c => c = 'u' || c = 's' || c = '|' || c = 'm' || c = '%')

/-- Character class `[k|m|%]` of the `Req/Sec` pattern. -/
def reqSecUnitCls : Atom :=
  .cls (fun c => c = 'k' || c = '|' || c = 'm' || c = '%')

/-- Character class `[B|KB|MB|GB]` of the bytes-read capture. -/
def bytesReadCls : Atom :=
  .cls (fun c => c = 'B' || c = '|' || c = 'K' || c = 'M' || c = 'G')

/-- Character class `[B|KB|MB]` of the transfer-per-second capture. -/
def transferCls : Atom :=
  .cls (fun c => c = 'B' || c = '|' || c = 'K' || c = 'M')

/-- Literal pieces for a fixed substring of a pattern. -/
def lits (s : String) : List Piece :=
  s.data.map (fun c => .simple (.one (.lit c)))

/-- The simple pieces `[0-9]+\.*[0-9]*` shared by the numeric captures. -/
def decimalPieces : List SimplePiece :=
  [.plus digitCls, .star (.lit '.'), .star digitCls]

/-- Value capture group `([0-9]+\.*[0-9]*U+)` with unit class `U`. -/
def valueGroup (idx : Nat) (unit : Atom) : Piece :=
  .group idx (decimalPieces ++ [.plus unit])

/-- Value capture group `([0-9]+\.*[0-9]*U*)` with starred unit class. -/
def valueGroupStarUnit (idx : Nat) (unit : Atom) : Piece :=
  .group idx (decimalPieces ++ [.star unit])

/-- Regex `([0-9]+) threads and ([0-9]+) connections`
(src/src/docker/listener/benchmarker.rs, line 29). -/
def threadsConnectionsRe : List Piece :=
  [.group 1 [.plus digitCls]] ++ lits " threads and " ++
    [.group 2 [.plus digitCls]] ++ lits " connections"

/-- Regex `Latency(\s)*(V)(\s)*(V)(\s)*(V)(\s)*(V)` with
`V = [0-9]+\.*[0-9]*[us|ms|s|m|%]+` (line 30); the useful captures are the
value groups 2, 4, 6 and 8. -/
def latencyRe : List Piece :=
  lits "Latency" ++
    [.starGroup 1 wsCls, valueGroup 2 latUnitCls,
     .starGroup 3 wsCls, valueGroup 4 latUnitCls,
     .starGroup 5 wsCls, valueGroup 6 latUnitCls,
     .starGroup 7 wsCls, valueGroup 8 latUnitCls]

/-- Regex `Req/Sec(\s)*(W)(\s)*(W)(\s)*(W)(\s)*(W)` with
`W = [0-9]+\.*[0-9]*[k|m|%]*` (line 31). -/
def reqSecRe : List Piece :=
  lits "Req/Sec" ++
    [.starGroup 1 wsCls, valueGroupStarUnit 2 reqSecUnitCls,
     .starGroup 3 wsCls, valueGroupStarUnit 4 reqSecUnitCls,
     .starGroup 5 wsCls, valueGroupStarUnit 6 reqSecUnitCls,
     .starGroup 7 wsCls, valueGroupStarUnit 8 reqSecUnitCls]

/-- Regex `([0-9]+) requests in ([0-9]+\.*[0-9]*)s, (V) read` with
`V = [0-9]+\.*[0-9]*[B|KB|MB|GB]+` (line 32). -/
def totalRequestsRe : List Piece :=
  [.group 1 [.plus digitCls]] ++ lits " requests in " ++
    [.group 2 decimalPieces] ++ lits "s, " ++
    [valueGroup 3 bytesReadCls] ++ lits " read"

/-- Regex `Non-2xx or 3xx responses: ([0-9]+)` (line 33). -/
def non2xx3xxRe : List Piece :=
  lits "Non-2xx or 3xx responses: " ++ [.group 1 [.plus digitCls]]

/-- Regex `Requests/sec:(\s)*([0-9]+\.*[0-9]*)` (line 34). -/
def requestsPerSecondRe : List Piece :=
  lits "Requests/sec:" ++ [.starGroup 1 wsCls, .group 2 decimalPieces]

/-- Regex `Transfer/sec:(\s)*([0-9]+\.*[0-9]*[B|KB|MB]+)` (line 35). -/
def transferPerSecondRe : List Piece :=
  lits "Transfer/sec:" ++ [.starGroup 1 wsCls, valueGroup 2 transferCls]

/-- Regex `50%(\s)*(V)` over the latency unit class (line 36). -/
def latencyDist50Re : List Piece :=
  lits "50%" ++ [.starGroup 1 wsCls, valueGroup 2 latUnitCls]

/-- Regex `75%(\s)*(V)` (line 37). -/
def latencyDist75Re : List Piece :=
  lits "75%" ++ [.starGroup 1 wsCls, valueGroup 2 latUnitCls]

/-- Regex `90%(\s)*(V)` (line 38). -/
def latencyDist90Re : List Piece :=
  lits "90%" ++ [.starGroup 1 wsCls, valueGroup 2 latUnitCls]

/-- Regex `99%(\s)*(V)` (line 39). -/
def latencyDist99Re : List Piece :=
  lits "99%" ++ [.starGroup 1 wsCls, valueGroup 2 latUnitCls]

/-- Regex
`Socket errors: connect ([0-9]+), read ([0-9]+), write ([0-9]+), timeout ([0-9]+)`
(line 40).  The stand-alone `connect`/`read`/`write`/`timeout` statics of
the source are never applied in `parse_wrk_output` and are omitted. -/
def socketErrorsRe : List Piece :=
  lits "Socket errors: connect " ++ [.group 1 [.plus digitCls]] ++
    lits ", read " ++ [.group 2 [.plus digitCls]] ++
    lits ", write " ++ [.group 3 [.plus digitCls]] ++
    lits ", timeout " ++ [.group 4 [.plus digitCls]]

/-- Numeric value of a digit string. -/
def digitsVal (cs : List Char) : Nat :=
  cs.foldl (fun acc c => acc * 10 + (c.toNat - 48)) 0

/-- Model of `str::parse::<u32>().unwrap()` on a captured string: `none`
doubles for the panic when the capture does not fit in a `u32`. -/
def parseU32 (s : String) : Option Nat :=
  if !s.data.isEmpty ∧ s.data.all Char.isDigit then
    let n := digitsVal s.data
    if n ≤ 4294967295 then some n else none
  else none

/-- Decimal literal captured for an `f32` field, reading
`intPart + fracDigits / 10 ^ fracLen`.  The record keeps the literal, which
determines the IEEE-754 single-precision value the program stores via
`F32Lit.toF32` (round to nearest, ties to even). -/
structure F32Lit where
  intPart : Nat
  fracDigits : Nat
  fracLen : Nat
  deriving DecidableEq, Repr

/-- The decimal value zero, the `f32` default of the scan locals. -/
def F32Lit.zero : F32Lit := ⟨0, 0, 0⟩

/-- Model of `str::parse::<f32>().unwrap()` on a captured string.  The
accepted surface is a decimal literal `digits ('.' digits*)?`, recorded as
the literal `F32Lit`; the `f32` value it denotes is `F32Lit.toF32`.
`none` doubles for the panic when the capture is not a float literal — the
capture regexes' `\.*` admits several consecutive dots, which
`f32::from_str` rejects. -/
def parseF32 (s : String) : Option F32Lit :=
  let cs := s.data
  let intPart := cs.takeWhile Char.isDigit
  let rest := cs.dropWhile Char.isDigit
  if intPart.isEmpty then none
  else
    match rest with
    | [] => some ⟨digitsVal intPart, 0, 0⟩
    | c :: frac =>
      if c = '.' ∧ frac.all Char.isDigit then
        some ⟨digitsVal intPart, digitsVal frac, frac.length⟩
      else none

/-- Latency thread-stats block of `BenchmarkResults`
(src/src/docker/listener/benchmarker.rs, lines 201-207). -/
structure Latency where
  average : String
  standard_deviation : String
  max : String
  plus_minus_std_dev : String
  deriving DecidableEq, Repr

/-- Requests-per-second thread-stats block (lines 209-215). -/
structure RequestsPerSecond where
  average : String
  standard_deviation : String
  max : String
  plus_minus_std_dev : String
  deriving DecidableEq, Repr

/-- Thread-stats pair (lines 195-199). -/
structure ThreadStats where
  latency : Latency
  requests_per_second : RequestsPerSecond
  deriving DecidableEq, Repr

/-- Latency distribution percentiles (lines 217-223). -/
structure LatencyDistribution where
  percentile_50 : String
  percentile_75 : String
  percentile_90 : String
  percentile_99 : String
  deriving DecidableEq, Repr

/-- Socket error counters (lines 225-231). -/
structure SocketErrors where
  connect : Nat
  read : Nat
  write : Nat
  timeout : Nat
  deriving DecidableEq, Repr

/-- Benchmark results record (lines 178-193).  `u128` millisecond stamps
and `u32` counters become `Nat`; the two `f32` fields keep the captured
decimal literal, which determines the stored `f32` value via
`F32Lit.toF32` (the literal is strictly finer information). -/
structure BenchmarkResults where
  start_time : Nat
  end_time : Nat
  threads : Nat
  connections : Nat
  thread_stats : ThreadStats
  latency_distribution : LatencyDistribution
  total_requests : Nat
  duration : F32Lit
  data_read : String
  socket_errors : Option SocketErrors
  requests_per_second : F32Lit
  transfer_per_second : String
  non_2xx_3xx : Option Nat
  deriving DecidableEq, Repr

/-- The mutable locals of `parse_wrk_output`
(src/src/docker/listener/benchmarker.rs, lines 48-68) with their initial
`default` values. -/
structure WrkScan where
  threads : Nat := 0
  connections : Nat := 0
  latency_average : String := ""
  latency_stddev : String := ""
  latency_max : String := ""
  latency_plus_minus : String := ""
  req_sec_average : String := ""
  req_sec_stddev : String := ""
  req_sec_max : String := ""
  req_sec_plus_minus : String := ""
  total_requests : Nat := 0
  duration : F32Lit := F32Lit.zero
  data_read : String := ""
  socket_errors : Option SocketErrors := none
  non_2xx_3xx : Option Nat := none
  requests_per_second : F32Lit := F32Lit.zero
  transfer_per_second : String := ""
  percentile_50 : String := ""
  percentile_75 : String := ""
  percentile_90 : String := ""
  percentile_99 : String := ""
  deriving DecidableEq, Repr

/-- Capture block for `THREADS_CONNECTIONS` (lines 70-73). -/
def scanThreads (line : List Char) (st : WrkScan) : Option WrkScan :=
  match reFind threadsConnectionsRe line with
  | none => some st
  | some caps =>
    match (capStr caps 1).bind parseU32, (capStr caps 2).bind parseU32 with
    | some t, some c => some { st with threads := t, connections := c }
    | _, _ => none

/-- Capture block for `LATENCY` (lines 74-79). -/
def scanLatency (line : List Char) (st : WrkScan) : Option WrkScan :=
  match reFind latencyRe line with
  | none => some st
  | some caps =>
    match capStr caps 2, capStr caps 4, capStr caps 6, capStr caps 8 with
    | some a, some s, some m, some p =>
      some { st with latency_average := a, latency_stddev := s,
                     latency_max := m, latency_plus_minus := p }
    | _, _, _, _ => none

/-- Capture block for `REQ_SEC` (lines 80-85). -/
def scanReqSec (line : List Char) (st : WrkScan) : Option WrkScan :=
  match reFind reqSecRe line with
  | none => some st
  | some caps =>
    match capStr caps 2, capStr caps 4, capStr caps 6, capStr caps 8 with
    | some a, some s, some m, some p =>
      some { st with req_sec_average := a, req_sec_stddev := s,
                     req_sec_max := m, req_sec_plus_minus := p }
    | _, _, _, _ => none

/-- Capture block for `TOTAL_REQUESTS` (lines 86-90). -/
def scanTotalRequests (line : List Char) (st : WrkScan) : Option WrkScan :=
  match reFind totalRequestsRe line with
  | none => some st
  | some caps =>
    match (capStr caps 1).bind parseU32, (capStr caps 2).bind parseF32,
        capStr caps 3 with
    | some t, some d, some r =>
      some { st with total_requests := t, duration := d, data_read := r }
    | _, _, _ => none

/-- Capture block for `SOCKET_ERRORS` (lines 91-99). -/
def scanSocketErrors (line : List Char) (st : WrkScan) : Option WrkScan :=
  match reFind socketErrorsRe line with
  | none => some st
  | some caps =>
    match (capStr caps 1).bind parseU32, (capStr caps 2).bind parseU32,
        (capStr caps 3).bind parseU32, (capStr caps 4).bind parseU32 with
    | some c, some r, some w, some t =>
      some { st with socket_errors := some ⟨c, r, w, t⟩ }
    | _, _, _, _ => none

/-- Capture block for `NON_2XX_3XX` (lines 100-103). -/
def scanNon2xx3xx (line : List Char) (st : WrkScan) : Option WrkScan :=
  match reFind non2xx3xxRe line with
  | none => some st
  | some caps =>
    match (capStr caps 1).bind parseU32 with
    | some n => some { st with non_2xx_3xx := some n }
    | none => none

/-- Capture block for `REQUESTS_PER_SECOND` (lines 104-107). -/
def scanRequestsPerSecond (line : List Char) (st : WrkScan) : Option WrkScan :=
  match reFind requestsPerSecondRe line with
  | none => some st
  | some caps =>
    match (capStr caps 2).bind parseF32 with
    | some r => some { st with requests_per_second := r }
    | none => none

/-- Capture block for `TRANSFER_PER_SECOND` (lines 108-110). -/
def scanTransferPerSecond (line : List Char) (st : WrkScan) : Option WrkScan :=
  match reFind transferPerSecondRe line with
  | none => some st
  | some caps =>
    match capStr caps 2 with
    | some t => some { st with transfer_per_second := t }
    | none => none

/-- Capture block for `LATENCY_DIST_50` (lines 111-113). -/
def scanP50 (line : List Char) (st : WrkScan) : Option WrkScan :=
  match reFind latencyDist50Re line with
  | none => some st
  | some caps =>
    match capStr caps 2 with
    | some v => some { st with percentile_50 := v }
    | none => none

/-- Capture block for `LATENCY_DIST_75` (lines 114-116). -/
def scanP75 (line : List Char) (st : WrkScan) : Option WrkScan :=
  match reFind latencyDist75Re line with
  | none => some st
  | some caps =>
    match capStr caps 2 with
    | some v => some { st with percentile_75 := v }
    | none => none

/-- Capture block for `LATENCY_DIST_90` (lines 117-119). -/
def scanP90 (line : List Char) (st : WrkScan) : Option WrkScan :=
  match reFind latencyDist90Re line with
  | none => some st
  | some caps =>
    match capStr caps 2 with
    | some v => some { st with percentile_90 := v }
    | none => none

/-- Capture block for `LATENCY_DIST_99` (lines 120-122). -/
def scanP99 (line : List Char) (st : WrkScan) : Option WrkScan :=
  match reFind latencyDist99Re line with
  | none => some st
  | some caps =>
    match capStr caps 2 with
    | some v => some { st with percentile_99 := v }
    | none => none

/-- One iteration of the `for line in data.lines()` loop of
`parse_wrk_output` (lines 69-123), applying the capture blocks in source
order.  `none` doubles for a panic in one of the `unwrap`s. -/
def scanLine (st : WrkScan) (line : List Char) : Option WrkScan :=
  (scanThreads line st).bind (scanLatency line) |>.bind (scanReqSec line)
    |>.bind (scanTotalRequests line) |>.bind (scanSocketErrors line)
    |>.bind (scanNon2xx3xx line) |>.bind (scanRequestsPerSecond line)
    |>.bind (scanTransferPerSecond line) |>.bind (scanP50 line)
    |>.bind (scanP75 line) |>.bind (scanP90 line) |>.bind (scanP99 line)

/-- Base-two logarithm with explicit recursion budget (the budget is
always ample at one unit per value halving), so that the kernel can
evaluate it; semantically identical to `Nat.log2`. -/
def natLog2Fuel : Nat → Nat → Nat
  | 0, _ => 0
  | fuel + 1, n => if n ≥ 2 then natLog2Fuel fuel (n / 2) + 1 else 0

/-- Floor of the base-two logarithm (0 at 0), kernel-evaluable. -/
def natLog2 (n : Nat) : Nat := natLog2Fuel n n

/-- Nonnegative IEEE-754 single-precision value: zero, infinity, or a
finite value `m * 2 ^ e`.  For normal numbers `m ∈ [2^23, 2^24)` with
`e = E - 23`, `E ∈ [-126, 127]`; subnormals carry `e = -149` and
`m < 2^23`.  Only nonnegative values arise here: the captures are unsigned
decimals and the factor is `1_000f32`. -/
inductive F32
  | zero
  | finite (m : Nat) (e : Int)
  | inf
  deriving DecidableEq, Repr

/-- Rounds the rational `num / den` to the nearest integer, ties to
even. -/
def roundTiesEven (num den : Nat) : Nat :=
  let q := num / den
  let r := num % den
  if 2 * r < den then q
  else if 2 * r > den then q + 1
  else if q % 2 = 0 then q else q + 1

/-- Whether `2 ^ x ≤ a / b` for the rational `a / b` (with `b > 0`). -/
def le2pow (a b : Nat) (x : Int) : Bool :=
  if x ≥ 0 then b * 2 ^ x.toNat ≤ a else b ≤ a * 2 ^ (-x).toNat

/-- Rounds the nonnegative rational `a / b` (with `b > 0`) to the nearest
single-precision value, ties to even: the binade exponent `E` is located
via `natLog2`, the significand is rounded at the quantum `2 ^ (E - 23)`
(or at the subnormal quantum `2 ^ (-149)` when `E < -126`), a carry into
`2 ^ 24` moves up one binade, and values at or beyond `2 ^ 128` round to
infinity. -/
def roundF32Rat (a b : Nat) : F32 :=
  if a = 0 then .zero
  else
    let e0 : Int := (natLog2 a : Int) - (natLog2 b : Int)
    let E : Int := if le2pow a b e0 then e0 else e0 - 1
    if E < -126 then
      let m := roundTiesEven (a * 2 ^ 149) b
      if m = 0 then .zero else .finite m (-149)
    else
      let shift : Int := E - 23
      let m :=
        if shift ≥ 0 then roundTiesEven a (b * 2 ^ shift.toNat)
        else roundTiesEven (a * 2 ^ (-shift).toNat) b
      if m = 2 ^ 24 then
        if E + 1 > 127 then .inf else .finite (2 ^ 23) (E - 22)
      else if E > 127 then .inf
      else .finite m shift

/-- Single-precision multiplication of nonnegative values: the exact
product of the two finite values re-rounded to the nearest representable
value (the `inf * zero` NaN case never arises on the verified path, where
the second factor is the constant `1_000f32`). -/
def F32.mul (x y : F32) : F32 :=
  match x, y with
  | .zero, _ => .zero
  | _, .zero => .zero
  | .inf, _ => .inf
  | _, .inf => .inf
  | .finite m1 e1, .finite m2 e2 =>
    let e := e1 + e2
    if e ≥ 0 then roundF32Rat (m1 * m2 * 2 ^ e.toNat) 1
    else roundF32Rat (m1 * m2) (2 ^ (-e).toNat)

/-- Rust's saturating `as u128` cast on a nonnegative single-precision
value: truncation toward zero; infinity saturates to the maximal `u128`
(every finite `f32` fits, the largest being `2 ^ 128 - 2 ^ 104`). -/
def F32.toU128trunc : F32 → Nat
  | .zero => 0
  | .inf => 2 ^ 128 - 1
  | .finite m e =>
    if e ≥ 0 then min (m * 2 ^ e.toNat) (2 ^ 128 - 1) else m / 2 ^ (-e).toNat

/-- The single-precision value denoted by a captured decimal literal, as
`str::parse::<f32>` computes it (correctly rounded, ties to even). -/
def F32Lit.toF32 (d : F32Lit) : F32 :=
  roundF32Rat (d.intPart * 10 ^ d.fracLen + d.fracDigits) (10 ^ d.fracLen)

/-- Millisecond conversion `(duration * 1_000f32) as u128` of line 126:
the `f32` value of the captured duration is multiplied by the constant
`1_000f32` in single precision and the product cast to `u128` by
truncation toward zero. -/
def durationToMillis (d : F32Lit) : Nat :=
  (d.toF32.mul (roundF32Rat 1000 1)).toU128trunc

/-- Shallow embedding of `Benchmarker::parse_wrk_output`
(src/src/docker/listener/benchmarker.rs, lines 27-160) applied to the
buffered transcript.  The listener's construction-time stamp is the
parameter `start_time`; the transcript arrives as a Lean `String`, so the
non-UTF-8 branch (`BenchmarkDataParseError`) is unreachable, and `none`
doubles for the panic of an `unwrap` on a numeric capture that does not
parse. -/
def parse_wrk_output (start_time : Nat) (data : String) :
    Option BenchmarkResults :=
  match (rustLines data.data).foldlM scanLine {} with
  | some st =>
    some
      { start_time := start_time
        end_time := start_time + durationToMillis st.duration
        threads := st.threads
        connections := st.connections
        thread_stats :=
          { latency :=
              { average := st.latency_average
                standard_deviation := st.latency_stddev
                max := st.latency_max
                plus_minus_std_dev := st.latency_plus_minus }
            requests_per_second :=
              { average := st.req_sec_average
                standard_deviation := st.req_sec_stddev
                max := st.req_sec_max
                plus_minus_std_dev := st.req_sec_plus_minus } }
        latency_distribution :=
          { percentile_50 := st.percentile_50
            percentile_75 := st.percentile_75
            percentile_90 := st.percentile_90
            percentile_99 := st.percentile_99 }
        total_requests := st.total_requests
        duration := st.duration
        data_read := st.data_read
        socket_errors := st.socket_errors
        requests_per_second := st.requests_per_second
        transfer_per_second := st.transfer_per_second
        non_2xx_3xx := st.non_2xx_3xx }
  | none => none

/-- Well-formedness of a daemon state: every network id already handed out
is below the fresh-id counter. -/
def DockerDaemonState.wf (s : DockerDaemonState) : Prop :=
  ∀ p ∈ s.networks, p.2 < s.nextId

instance (s : DockerDaemonState) : Decidable s.wf := by
  unfold DockerDaemonState.wf
  infer_instance

/-- A filter on the complement of a name leaves no entry of that name. -/
theorem filter_no_tfbnetwork (l : List (String × Nat)) :
    (l.filter (fun nw => nw.1 ≠ "TFBNetwork")).any
      (fun nw => nw.1 = "TFBNetwork") = false := by
  rw [List.any_eq_false]
  intro p hp
  have h2 := List.of_mem_filter hp
  simp at h2 ⊢
  exact h2

/-- Behaviour of the embedded `create_network` from any daemon state: it
returns the fresh id `s.nextId`, and the resulting state holds the newly
created `TFBNetwork` (any previously existing one having been deleted by
the 409 branch). -/
theorem createNetwork_run (s : DockerDaemonState) :
    createNetwork s =
      some (s.nextId,
        ⟨s.networks.filter (fun nw => nw.1 ≠ "TFBNetwork") ++
          [("TFBNetwork", s.nextId)], s.nextId + 1⟩) := by
  by_cases h : s.networks.any (fun nw => nw.1 = "TFBNetwork")
  · simp [createNetwork, createNetworkFuel, networksCreateApi, deleteNetworkApi,
      h, filter_no_tfbnetwork]
  · simp only [Bool.not_eq_true, List.any_eq_false, decide_eq_true_eq] at h
    have hfilter : s.networks.filter (fun nw => nw.1 ≠ "TFBNetwork") = s.networks := by
      apply List.filter_eq_self.mpr
      intro p hp
      simpa using h p hp
    simp only [createNetwork, createNetworkFuel, networksCreateApi]
    rw [if_neg]
    · rw [hfilter]
    · intro hcontra
      rw [List.any_eq_true] at hcontra
      obtain ⟨p, hp, hpeq⟩ := hcontra
      exact h p hp (by simpa using hpeq)

/-- Tracker state used in the concrete teardown runs: all four roles have a
registered container. -/
def exVerifierTracker : DockerContainerIdFuture :=
  ⟨"client-host", none, some "verifier-c", true⟩

/-- Registered load-generator tracker for the concrete teardown runs. -/
def exBenchmarkerTracker : DockerContainerIdFuture :=
  ⟨"client-host", none, some "loadgen-c", true⟩

/-- Registered application tracker for the concrete teardown runs. -/
def exApplicationTracker : DockerContainerIdFuture :=
  ⟨"server-host", none, some "app-c", true⟩

/-- Registered database tracker for the concrete teardown runs. -/
def exDatabaseTracker : DockerContainerIdFuture :=
  ⟨"database-host", none, some "db-c", true⟩

/-- Claim C1, counterexample: in a run of `stop_containers` (and of the
interrupt worker) with all four trackers registered, the verifier's
container is killed first — the load generator's kill does not precede the
verifier's, contradicting the claimed loadgen → verifier → app → database
order. -/
theorem C1_counterexample :
    stopContainersKills exVerifierTracker exBenchmarkerTracker
        exApplicationTracker exDatabaseTracker =
      ["verifier-c", "loadgen-c", "app-c", "db-c"] ∧
    interruptWorkerKills exVerifierTracker exBenchmarkerTracker
        exApplicationTracker exDatabaseTracker =
      ["verifier-c", "loadgen-c", "app-c", "db-c"] ∧
    ¬ ((stopContainersKills exVerifierTracker exBenchmarkerTracker
          exApplicationTracker exDatabaseTracker).findIdx
            (fun id => id = "loadgen-c") <
        (stopContainersKills exVerifierTracker exBenchmarkerTracker
          exApplicationTracker exDatabaseTracker).findIdx
            (fun id => id = "verifier-c")) := by
  decide

/-- Claim C1, amended: in every teardown — the interrupt worker of
`Benchmarker::new` and every run of `stop_containers` — the four lifecycle
trackers are drained in the order verifier → load generator → application →
database; with all four registered the kill sequence is exactly their four
container ids in that order, identical for both teardown paths. -/
theorem C1_drain_order (v b a d : DockerContainerIdFuture)
    (cv cb ca cd : String)
    (hv : v.containerId = some cv) (hb : b.containerId = some cb)
    (ha : a.containerId = some ca) (hd : d.containerId = some cd) :
    stopContainersKills v b a d = [cv, cb, ca, cd] ∧
    interruptWorkerKills v b a d = stopContainersKills v b a d := by
  constructor
  · simp [stopContainersKills, stopDockerContainerFuture, hv, hb, ha, hd]
  · simp [stopContainersKills, interruptWorkerKills]

/-- Witness for `C1_drain_order` at the four registered trackers. -/
theorem C1_drain_order_witness :
    stopContainersKills exVerifierTracker exBenchmarkerTracker
        exApplicationTracker exDatabaseTracker =
      ["verifier-c", "loadgen-c", "app-c", "db-c"] ∧
    interruptWorkerKills exVerifierTracker exBenchmarkerTracker
        exApplicationTracker exDatabaseTracker =
      stopContainersKills exVerifierTracker exBenchmarkerTracker
        exApplicationTracker exDatabaseTracker :=
  C1_drain_order exVerifierTracker exBenchmarkerTracker exApplicationTracker
    exDatabaseTracker "verifier-c" "loadgen-c" "app-c" "db-c"
    rfl rfl rfl rfl

/-- The endpoint mapping of the failing test descriptor: two test types
inserted in the order json, plaintext, with a hasher placement that lays
plaintext out before json. -/
def exUrls : RustHashMap :=
  ⟨[("json", "/json"), ("plaintext", "/plaintext")],
    fun k => if k = "plaintext" then 0 else 1⟩

/-- A test descriptor over `exUrls`. -/
def exTest : Test := ⟨some "gemini", exUrls, none⟩

/-- Claim C2: the iteration order of the `HashMap` holding a test's
endpoint mapping — the order `benchmark`, `verify` and the probe's endpoint
pick visit the test types in — is the hasher's layout order, which for this
map differs from the insertion order, so iteration does not visit entries
in insertion order. -/
theorem C2_iteration_not_insertion_order :
    testTypeVisitOrder exTest =
      [("plaintext", "/plaintext"), ("json", "/json")] ∧
    testTypeVisitOrder exTest ≠ exTest.urls.entries := by
  decide

/-- All-failing runs of the benchmarker.rs probe: with the container
always running and every HTTP attempt failing with response code 0, the
probe counts up from any starting counter value at most 61, performs one
tick per failure, and ends after `61 - sleptFor` ticks by stopping the
containers and returning `NoResponseFromDockerContainerError`. -/
theorem probe_all_zero_code (running : Nat → Bool)
    (respCode : Nat → Option Nat) (hr : ∀ i, running i = true)
    (hc : ∀ i, respCode i = some 0) :
    ∀ k s, 61 - s = k → s ≤ 61 →
      waitUntilAcceptingRequests running respCode s =
        ⟨.error .NoResponseFromDockerContainerError, 61 - s, true⟩ := by
  intro k
  induction k with
  | zero =>
    intro s hk hs
    have h61 : s = 61 := by omega
    subst h61
    rw [waitUntilAcceptingRequests]
    simp [hr 61]
  | succ k ih =>
    intro s hk hs
    have hs60 : s ≤ 60 := by omega
    have hrec := ih (s + 1) (by omega) (by omega)
    rw [waitUntilAcceptingRequests]
    simp [hr s, hc s, Nat.not_lt.mpr hs60, hrec]
    omega

/-- Claim C3: the probe of benchmarker.rs is bounded — with the container
running and every attempt failing (response code 0, curl's value when no
response arrives) it performs exactly 61 one-second ticks, stops the
containers and returns `NoResponseFromDockerContainerError` — but the older
probe copy of docker/mod.rs never increments its counter on such failures:
after 62 iterations it is still looping with `slept_for = 0`, so it probes
beyond every bound and never returns the timeout error. -/
theorem C3_probe_bound_vs_old_probe :
    waitUntilAcceptingRequests (fun _ => true) (fun _ => some 0) 0 =
      ⟨.error .NoResponseFromDockerContainerError, 61, true⟩ ∧
    oldProbeRun (fun _ => some 0) 62 ⟨0, 0⟩ = .inl ⟨62, 0⟩ := by
  constructor
  · exact probe_all_zero_code (fun _ => true) (fun _ => some 0)
      (fun _ => rfl) (fun _ => rfl) 61 0 rfl (by omega)
  · decide

/-- Claim C4: on any tick at which an HTTP response arrives with a status
code greater than zero — 500 included — both probe embeddings return `Ok`
immediately, with no further ticks; no 2xx code is required. -/
theorem C4_any_positive_code_accepts :
    (∀ (running : Nat → Bool) (respCode : Nat → Option Nat) (sleptFor c : Nat),
      running sleptFor = true → sleptFor ≤ 60 →
      respCode sleptFor = some c → 0 < c →
      waitUntilAcceptingRequests running respCode sleptFor =
        ⟨.ok (), 0, false⟩) ∧
    (∀ (respCode : Nat → Option Nat) (st : OldProbeState) (c : Nat),
      st.sleptFor ≤ 60 → respCode st.iter = some c → 0 < c →
      oldProbeStep respCode st = .inr (.ok ())) := by
  constructor
  · intro running respCode s c hr hs hc hpos
    rw [waitUntilAcceptingRequests]
    simp [hr, hc, hpos, Nat.not_lt.mpr hs]
  · intro respCode st c hs hc hpos
    simp [oldProbeStep, hc, hpos, Nat.not_lt.mpr hs]

/-- Witness for `C4_any_positive_code_accepts` at response code 500. -/
theorem C4_any_positive_code_accepts_witness :
    waitUntilAcceptingRequests (fun _ => true) (fun _ => some 500) 7 =
      ⟨.ok (), 0, false⟩ ∧
    oldProbeStep (fun _ => some 500) ⟨3, 2⟩ = .inr (.ok ()) :=
  ⟨C4_any_positive_code_accepts.1 (fun _ => true) (fun _ => some 500) 7 500
      rfl (by decide) rfl (by decide),
    C4_any_positive_code_accepts.2 (fun _ => some 500) ⟨3, 2⟩ 500
      (by decide) rfl (by decide)⟩

/-- Claim C5: on any tick at which `inspect_container` reports the app
container's `running` flag as false, the probe returns
`AppServerContainerShutDownError` at once — no further retries, no
`NoResponseFromDockerContainerError` — whatever the counter value and the
HTTP responses. -/
theorem C5_shutdown_detected (running : Nat → Bool)
    (respCode : Nat → Option Nat) (sleptFor : Nat)
    (h : running sleptFor = false) :
    waitUntilAcceptingRequests running respCode sleptFor =
      ⟨.error .AppServerContainerShutDownError, 0, false⟩ := by
  rw [waitUntilAcceptingRequests]
  simp [h]

/-- Witness for `C5_shutdown_detected`, also at a counter value past the
timeout threshold. -/
theorem C5_shutdown_detected_witness :
    waitUntilAcceptingRequests (fun _ => false) (fun _ => some 500) 61 =
      ⟨.error .AppServerContainerShutDownError, 0, false⟩ :=
  C5_shutdown_detected (fun _ => false) (fun _ => some 500) 61 rfl

/-- Claim C6, counterexample: from a daemon state that already holds a
network named TFBNetwork with id 0, `create_network` returns id 1 — not the
existing id — leaving a state whose TFBNetwork has the new id; and two
successive calls from an empty daemon return the distinct ids 0 and 1, so
the operation is not idempotent and has no inspect fast-path. -/
theorem C6_counterexample :
    createNetwork ⟨[("TFBNetwork", 0)], 1⟩ =
      some (1, ⟨[("TFBNetwork", 1)], 2⟩) ∧
    (1 : Nat) ≠ 0 ∧
    (createNetwork ⟨[], 0⟩).map Prod.fst = some 0 ∧
    ((createNetwork ⟨[], 0⟩).bind fun r => (createNetwork r.2).map Prod.fst) =
      some 1 := by
  decide

/-- Claim C6, amended: when a network named TFBNetwork already exists,
`create_network` does not return its id: the 409-conflict branch deletes
the existing network and creates a fresh one, returning the fresh id, and
two successive calls return distinct ids. -/
theorem C6_delete_and_recreate (s : DockerDaemonState) (old : Nat)
    (hwf : s.wf) (hmem : ("TFBNetwork", old) ∈ s.networks) :
    (createNetwork s).map Prod.fst = some s.nextId ∧
    old ≠ s.nextId ∧
    ((createNetwork s).bind fun r => (createNetwork r.2).map Prod.fst) =
      some (s.nextId + 1) := by
  have h1 := createNetwork_run s
  refine ⟨by rw [h1]; rfl, ?_, ?_⟩
  · exact Nat.ne_of_lt (hwf _ hmem)
  · rw [h1]
    show (createNetwork _).map Prod.fst = _
    rw [createNetwork_run]
    rfl

/-- Witness for `C6_delete_and_recreate` at a daemon holding TFBNetwork
with id 0. -/
theorem C6_delete_and_recreate_witness :
    (createNetwork ⟨[("TFBNetwork", 0)], 1⟩).map Prod.fst = some 1 ∧
    (0 : Nat) ≠ 1 ∧
    ((createNetwork ⟨[("TFBNetwork", 0)], 1⟩).bind fun r =>
      (createNetwork r.2).map Prod.fst) = some 2 :=
  C6_delete_and_recreate ⟨[("TFBNetwork", 0)], 1⟩ 0 (by decide) (by decide)

/-- A complete verifier warning line (with terminating newline), as one
chunk. -/
def warningLineFull : String :=
  "\x7b\"warning\":\x7b\"message\":\"m\",\"short_message\":\"s\"\x7d\x7d\n"

/-- First chunk of the same bytes, cut in the middle of the JSON line. -/
def warningChunk1 : String := "\x7b\"warning\":\x7b\"mes"

/-- Second chunk of the same bytes. -/
def warningChunk2 : String := "sage\":\"m\",\"short_message\":\"s\"\x7d\x7d\n"

/-- Claim C7: the verifier listener is not line-robust.  The same byte
sequence — a complete `warning` JSON line — fed as a single chunk yields one
accumulated warning, but fed as two chunks cut inside the line yields none:
each chunk's tail fragment is parsed as a whole line on the spot and no
remainder is carried over, so the warning is lost to the log. -/
theorem C7_chunking_changes_result :
    warningChunk1 ++ warningChunk2 = warningLineFull ∧
    (verifierRun (verifierInit "gemini" "gemini" "plaintext")
        [warningLineFull.data]).verification.warnings = [⟨"m", "s"⟩] ∧
    (verifierRun (verifierInit "gemini" "gemini" "plaintext")
        [warningChunk1.data, warningChunk2.data]).verification.warnings =
      [] := by
  decide

/-- Inspect payload of the host-mode witness: one exposed port `8080/tcp`
and no `NetworkSettings.Ports` entry for it. -/
def exInspectPayload : Json :=
  .obj [("Config", .obj [("ExposedPorts", .obj [("8080/tcp", .obj [])])]),
    ("NetworkSettings", .obj [("Ports", .obj [])])]

/-- Claim C9: in host network mode, when the inspect payload exposes a
`"N/proto"` key whose `NetworkSettings.Ports` entry has no `HostPort`
string, `get_host_ports` returns the pair `(N, N)` — host port and internal
port identical. -/
theorem C9_host_mode_ports (j : Json) (exposed : List (String × Json))
    (n : String)
    (hExp : ((j.idx "Config").idx "ExposedPorts").asObject = some exposed)
    (hHead : splitSlashHead (firstExposedKey exposed) = some n)
    (hNoPort : (((((j.idx "NetworkSettings").idx "Ports").idx
        (firstExposedKey exposed)).idxAt 0).idx "HostPort").asStr = none) :
    getHostPorts .host j = .ok (n, n) := by
  simp [getHostPorts, hExp, hHead, hNoPort]

/-- Witness for `C9_host_mode_ports` at the concrete inspect payload. -/
theorem C9_host_mode_ports_witness :
    getHostPorts .host exInspectPayload = .ok ("8080", "8080") :=
  C9_host_mode_ports exInspectPayload [("8080/tcp", .obj [])] "8080"
    rfl rfl rfl

/-- Claim C10: `stop_containers_because_of_error` returns the original
error only when stopping the listed containers succeeds; a failure while
stopping the first container (or the optional second) is returned instead,
discarding the original error. -/
theorem C10_stop_failure_shadows_error
    (stopResult : String → Except ToolsetError Unit)
    (c0 : String) (c1 : Option String) (e : ToolsetError) :
    (∀ e1, stopResult c0 = .error e1 →
      stopContainersBecauseOfError stopResult (c0, c1) e = e1) ∧
    (stopResult c0 = .ok () → c1 = none →
      stopContainersBecauseOfError stopResult (c0, c1) e = e) ∧
    (∀ c, stopResult c0 = .ok () → c1 = some c → stopResult c = .ok () →
      stopContainersBecauseOfError stopResult (c0, c1) e = e) ∧
    (∀ c e2, stopResult c0 = .ok () → c1 = some c →
      stopResult c = .error e2 →
      stopContainersBecauseOfError stopResult (c0, c1) e = e2) := by
  refine ⟨?_, ?_, ?_, ?_⟩ <;> intros <;>
    simp_all [stopContainersBecauseOfError]

/-- Witness for `C10_stop_failure_shadows_error`: the app container's stop
fails with a curl error, which shadows the original timeout error. -/
theorem C10_stop_failure_shadows_error_witness :
    stopContainersBecauseOfError
      (fun id => if id = "app-c" then .error (.curlError 7) else .ok ())
      ("app-c", some "db-c") .NoResponseFromDockerContainerError =
      .curlError 7 :=
  (C10_stop_failure_shadows_error
      (fun id => if id = "app-c" then .error (.curlError 7) else .ok ())
      "app-c" (some "db-c") .NoResponseFromDockerContainerError).1
    (.curlError 7) (by decide)

/-- The scan fields whose defaults the missing-block clause of the spec is
about: the eight thread-stats strings and the two optional counters. -/
def scanAux (st : WrkScan) :
    String × String × String × String × String × String × String × String ×
      Option SocketErrors × Option Nat :=
  (st.latency_average, st.latency_stddev, st.latency_max,
    st.latency_plus_minus, st.req_sec_average, st.req_sec_stddev,
    st.req_sec_max, st.req_sec_plus_minus, st.socket_errors, st.non_2xx_3xx)

/-- The threads block never touches the thread-stats strings or the
optional counters. -/
theorem scanThreads_preserves {line : List Char} {st st2 : WrkScan}
    (h : scanThreads line st = some st2) : scanAux st2 = scanAux st := by
  unfold scanThreads at h
  repeat' split at h
  all_goals first
    | (injection h with h; subst h; rfl)
    | exact Option.noConfusion h

/-- The total-requests block never touches the thread-stats strings or the
optional counters. -/
theorem scanTotalRequests_preserves {line : List Char} {st st2 : WrkScan}
    (h : scanTotalRequests line st = some st2) : scanAux st2 = scanAux st := by
  unfold scanTotalRequests at h
  repeat' split at h
  all_goals first
    | (injection h with h; subst h; rfl)
    | exact Option.noConfusion h

/-- The aggregate requests-per-second block never touches the thread-stats
strings or the optional counters. -/
theorem scanRequestsPerSecond_preserves {line : List Char} {st st2 : WrkScan}
    (h : scanRequestsPerSecond line st = some st2) :
    scanAux st2 = scanAux st := by
  unfold scanRequestsPerSecond at h
  repeat' split at h
  all_goals first
    | (injection h with h; subst h; rfl)
    | exact Option.noConfusion h

/-- The transfer-per-second block never touches the thread-stats strings or
the optional counters. -/
theorem scanTransferPerSecond_preserves {line : List Char} {st st2 : WrkScan}
    (h : scanTransferPerSecond line st = some st2) :
    scanAux st2 = scanAux st := by
  unfold scanTransferPerSecond at h
  repeat' split at h
  all_goals first
    | (injection h with h; subst h; rfl)
    | exact Option.noConfusion h

/-- The 50th-percentile block never touches the thread-stats strings or the
optional counters. -/
theorem scanP50_preserves {line : List Char} {st st2 : WrkScan}
    (h : scanP50 line st = some st2) : scanAux st2 = scanAux st := by
  unfold scanP50 at h
  repeat' split at h
  all_goals first
    | (injection h with h; subst h; rfl)
    | exact Option.noConfusion h

/-- The 75th-percentile block never touches the thread-stats strings or the
optional counters. -/
theorem scanP75_preserves {line : List Char} {st st2 : WrkScan}
    (h : scanP75 line st = some st2) : scanAux st2 = scanAux st := by
  unfold scanP75 at h
  repeat' split at h
  all_goals first
    | (injection h with h; subst h; rfl)
    | exact Option.noConfusion h

/-- The 90th-percentile block never touches the thread-stats strings or the
optional counters. -/
theorem scanP90_preserves {line : List Char} {st st2 : WrkScan}
    (h : scanP90 line st = some st2) : scanAux st2 = scanAux st := by
  unfold scanP90 at h
  repeat' split at h
  all_goals first
    | (injection h with h; subst h; rfl)
    | exact Option.noConfusion h

/-- The 99th-percentile block never touches the thread-stats strings or the
optional counters. -/
theorem scanP99_preserves {line : List Char} {st st2 : WrkScan}
    (h : scanP99 line st = some st2) : scanAux st2 = scanAux st := by
  unfold scanP99 at h
  repeat' split at h
  all_goals first
    | (injection h with h; subst h; rfl)
    | exact Option.noConfusion h

/-- A line the latency regex does not match leaves the latency block
inert. -/
theorem scanLatency_nomatch {line : List Char} (st : WrkScan)
    (h : reFind latencyRe line = none) : scanLatency line st = some st := by
  unfold scanLatency
  rw [h]

/-- A line the `Req/Sec` regex does not match leaves that block inert. -/
theorem scanReqSec_nomatch {line : List Char} (st : WrkScan)
    (h : reFind reqSecRe line = none) : scanReqSec line st = some st := by
  unfold scanReqSec
  rw [h]

/-- A line the socket-errors regex does not match leaves that block
inert. -/
theorem scanSocketErrors_nomatch {line : List Char} (st : WrkScan)
    (h : reFind socketErrorsRe line = none) :
    scanSocketErrors line st = some st := by
  unfold scanSocketErrors
  rw [h]

/-- A line the non-2xx regex does not match leaves that block inert. -/
theorem scanNon2xx3xx_nomatch {line : List Char} (st : WrkScan)
    (h : reFind non2xx3xxRe line = none) :
    scanNon2xx3xx line st = some st := by
  unfold scanNon2xx3xx
  rw [h]

/-- A line matching none of the latency, `Req/Sec`, socket-errors and
non-2xx regexes leaves all ten corresponding scan fields unchanged. -/
theorem scanLine_preserves {st : WrkScan} {line : List Char} {st2 : WrkScan}
    (hl : reFind latencyRe line = none) (hq : reFind reqSecRe line = none)
    (hsk : reFind socketErrorsRe line = none)
    (hn : reFind non2xx3xxRe line = none)
    (h : scanLine st line = some st2) : scanAux st2 = scanAux st := by
  unfold scanLine at h
  obtain ⟨s11, h11, hb12⟩ := Option.bind_eq_some.mp h
  obtain ⟨s10, h10, hb11⟩ := Option.bind_eq_some.mp h11
  obtain ⟨s9, h9, hb10⟩ := Option.bind_eq_some.mp h10
  obtain ⟨s8, h8, hb9⟩ := Option.bind_eq_some.mp h9
  obtain ⟨s7, h7, hb8⟩ := Option.bind_eq_some.mp h8
  obtain ⟨s6, h6, hb7⟩ := Option.bind_eq_some.mp h7
  obtain ⟨s5, h5, hb6⟩ := Option.bind_eq_some.mp h6
  obtain ⟨s4, h4, hb5⟩ := Option.bind_eq_some.mp h5
  obtain ⟨s3, h3, hb4⟩ := Option.bind_eq_some.mp h4
  obtain ⟨s2, h2, hb3⟩ := Option.bind_eq_some.mp h3
  obtain ⟨s1, hb1, hb2⟩ := Option.bind_eq_some.mp h2
  rw [scanLatency_nomatch s1 hl] at hb2
  injection hb2 with e2
  subst e2
  rw [scanReqSec_nomatch s1 hq] at hb3
  injection hb3 with e3
  subst e3
  rw [scanSocketErrors_nomatch s4 hsk] at hb5
  injection hb5 with e5
  subst e5
  rw [scanNon2xx3xx_nomatch s4 hn] at hb6
  injection hb6 with e6
  subst e6
  calc scanAux st2
      = scanAux s11 := scanP99_preserves hb12
    _ = scanAux s10 := scanP90_preserves hb11
    _ = scanAux s9 := scanP75_preserves hb10
    _ = scanAux s8 := scanP50_preserves hb9
    _ = scanAux s7 := scanTransferPerSecond_preserves hb8
    _ = scanAux s4 := scanRequestsPerSecond_preserves hb7
    _ = scanAux s1 := scanTotalRequests_preserves hb4
    _ = scanAux st := scanThreads_preserves hb1

/-- Folding the per-line scan over a transcript none of whose lines matches
the latency, `Req/Sec`, socket-errors or non-2xx regexes leaves the ten
corresponding scan fields unchanged. -/
theorem foldlM_scanLine_preserves :
    ∀ (lines : List (List Char)) (st st2 : WrkScan),
    (∀ l ∈ lines, reFind latencyRe l = none ∧ reFind reqSecRe l = none ∧
      reFind socketErrorsRe l = none ∧ reFind non2xx3xxRe l = none) →
    lines.foldlM scanLine st = some st2 → scanAux st2 = scanAux st := by
  intro lines
  induction lines with
  | nil =>
    intro st st2 _ h
    simp only [List.foldlM_nil] at h
    injection h with h
    subst h
    rfl
  | cons l ls ih =>
    intro st st2 hall h
    rw [List.foldlM_cons] at h
    obtain ⟨s1, h1, h2⟩ := Option.bind_eq_some.mp h
    have hthis := hall l (by simp)
    have e1 := scanLine_preserves hthis.1 hthis.2.1 hthis.2.2.1 hthis.2.2.2 h1
    have e2 := ih s1 st2 (fun l2 hl2 => hall l2 (by simp [hl2])) h2
    rw [e2, e1]

/-- A canonical wrk report containing the three lines singled out by the
claim, plus a threads line and a requests/duration line. -/
def canonicalWrkReport : String :=
  "  2 threads and 16 connections\n  Latency   1.23ms   456us   7.89s   99.9%\n  9000 requests in 15.02s, 1.94MB read\nRequests/sec:  12345.67\n    50%   1.00ms\n"

/-- A transcript with no latency and no `Req/Sec` block whose
total-requests count does not fit in a `u32`. -/
def overflowWrkReport : String := "4294967296 requests in 1.0s, 1B read\n"

/-- A transcript whose captured duration `4096.052` exposes the `f32`
roundings: `4096.052f32 = 4096.0517578125`, the single-precision product
with `1_000f32` rounds to `4096051.75`, and the truncating cast yields
4096051 — one short of the exact `duration * 1000 = 4096052`. -/
def f32RoundingWrkReport : String := "1 requests in 4096.052s, 1B read\n"

/-- Claim C8, counterexample, refuting two of its clauses.  First, a
transcript that misses both the latency and the `Req/Sec` blocks on which
`parse_wrk_output` nevertheless fails — the requests count 4294967296
overflows the `u32` parse, whose `unwrap` panics (`none` in the
embedding) — so the parser does not always return empty-string defaults
for transcripts missing those blocks.  Second, at the captured duration
`4096.052` the program's end time is `start_time + 4096051` (the `f32`
product `4096.052f32 * 1_000f32` rounds to `4096051.75` and the cast
truncates), not `start_time + duration-seconds * 1000 = start_time +
4096052` as claimed. -/
theorem C8_counterexample :
    (parse_wrk_output 0 overflowWrkReport = none ∧
      (rustLines overflowWrkReport.data).all
        (fun l => (reFind latencyRe l).isNone && (reFind reqSecRe l).isNone) =
        true) ∧
    ((parse_wrk_output 0 f32RoundingWrkReport).map
        (fun r => (r.duration, r.end_time)) =
      some (⟨4096, 52, 3⟩, 4096051) ∧
      (4096051 : Nat) ≠ 4096 * 1000 + 52) := by
  refine ⟨by decide, by decide, by decide⟩

/-- Claim C8, amended: `parse_wrk_output` behaves as claimed on the
canonical report (latency average `"1.23ms"`, aggregate requests per second
the parse of the capture `12345.67`, 50th percentile `"1.00ms"`, and end
time 15025 = start time 5 + 15020, the single-precision product of the
captured duration 15.02 with `1_000f32` truncated); in general the end
time always equals the start time plus `(duration * 1_000f32) as u128` —
the single-precision product truncated toward zero, which can fall short
of the exact duration × 1000 by a rounding unit (see the counterexample at
duration 4096.052); and every transcript matching neither the latency nor
the `Req/Sec` patterns (nor the socket-errors and non-2xx ones) on which
no numeric capture panics yields the empty-string thread-stats defaults
with `none` socket errors and non-2xx count. -/
theorem C8_parse_wrk_output :
    ((parse_wrk_output 5 canonicalWrkReport).map
      (fun r => (r.thread_stats.latency.average, r.requests_per_second,
        r.latency_distribution.percentile_50, r.end_time)) =
      some ("1.23ms", (⟨12345, 67, 2⟩ : F32Lit), "1.00ms", 15025)) ∧
    (∀ (start : Nat) (data : String) (r : BenchmarkResults),
      parse_wrk_output start data = some r →
      r.end_time = start + durationToMillis r.duration) ∧
    (∀ (start : Nat) (data : String) (r : BenchmarkResults),
      parse_wrk_output start data = some r →
      (∀ l ∈ rustLines data.data, reFind latencyRe l = none ∧
        reFind reqSecRe l = none ∧ reFind socketErrorsRe l = none ∧
        reFind non2xx3xxRe l = none) →
      r.thread_stats = ⟨⟨"", "", "", ""⟩, ⟨"", "", "", ""⟩⟩ ∧
      r.socket_errors = none ∧ r.non_2xx_3xx = none) := by
  refine ⟨by decide, ?_, ?_⟩
  · intro start data r h
    unfold parse_wrk_output at h
    split at h
    · injection h with h
      subst h
      rfl
    · exact Option.noConfusion h
  · intro start data r h hall
    unfold parse_wrk_output at h
    split at h
    case h_2 => exact Option.noConfusion h
    case h_1 st hfold =>
      injection h with h
      subst h
      have e := foldlM_scanLine_preserves (rustLines data.data) {} st hall hfold
      simp only [scanAux, Prod.mk.injEq] at e
      obtain ⟨e1, e2, e3, e4, e5, e6, e7, e8, e9, e10⟩ := e
      refine ⟨?_, e9, e10⟩
      show ThreadStats.mk ⟨st.latency_average, st.latency_stddev,
        st.latency_max, st.latency_plus_minus⟩
        ⟨st.req_sec_average, st.req_sec_stddev, st.req_sec_max,
          st.req_sec_plus_minus⟩ = _
      rw [e1, e2, e3, e4, e5, e6, e7, e8]

/-- The benchmark-results record `parse_wrk_output` yields on the empty
transcript: all defaults. -/
def emptyParseResult : BenchmarkResults :=
  ⟨0, 0, 0, 0, ⟨⟨"", "", "", ""⟩, ⟨"", "", "", ""⟩⟩, ⟨"", "", "", ""⟩, 0,
    F32Lit.zero, "", none, F32Lit.zero, "", none⟩

/-- Witness for `C8_parse_wrk_output` at the empty transcript, which
matches no pattern at all. -/
theorem C8_parse_wrk_output_witness :
    parse_wrk_output 0 "" = some emptyParseResult ∧
    emptyParseResult.end_time =
      0 + durationToMillis emptyParseResult.duration ∧
    emptyParseResult.thread_stats = ⟨⟨"", "", "", ""⟩, ⟨"", "", "", ""⟩⟩ ∧
    emptyParseResult.socket_errors = none ∧
    emptyParseResult.non_2xx_3xx = none := by
  refine ⟨by decide, C8_parse_wrk_output.2.1 0 "" emptyParseResult
    (by decide), ?_, ?_, ?_⟩
  · exact (C8_parse_wrk_output.2.2 0 "" emptyParseResult (by decide)
      (by decide)).1
  · exact (C8_parse_wrk_output.2.2 0 "" emptyParseResult (by decide)
      (by decide)).2.1
  · exact (C8_parse_wrk_output.2.2 0 "" emptyParseResult (by decide)
      (by decide)).2.2

end TFB
